import Mathlib

/-!
Shallow embedding of the conversation-state and request-orchestration core of
`ecliptica_bot.py` (a Telegram trading bot), together with theorems settling the
specification claims about it.

Conventions of the embedding:
* wall-clock time is `Int` seconds (Python `datetime` arithmetic is exact, so no
  truncation is introduced);
* the per-user busy map `user_states`, the `subscriptions` table and the
  `profile` table are total functions from user id to `Option` of the record;
* Python exceptions that a function catches and converts to a sentinel return
  value are modelled by returning that sentinel; an exception that propagates is
  an `Except.error`;
* the two outbound HTTP calls (primary and alternate completion endpoint) are
  modelled by `Except String String` parameters giving the outcome the network
  would produce.
-/

/-- Constant `FREE_ANALYSIS_LIMIT` (ecliptica_bot.py line 105): number of free analyses
before a subscription is required. -/
def FREE_ANALYSIS_LIMIT : Nat := 3

/-- One entry of the in-memory `user_states` map (line 133): the processing
flag and the last-request timestamp. -/
structure BusyState where
  processing : Bool
  last_request_time : Int
deriving DecidableEq

/-- The global `user_states` dictionary, user id to busy record. -/
def UserStates : Type := Nat → Option BusyState

/-- Point update of the `user_states` map. -/
def updState (s : UserStates) (uid : Nat) (st : BusyState) : UserStates :=
  fun u => if u = uid then some st else s u

/-- Model of `check_user_state` (lines 135-158). Returns `true` when the user is free to
make a new request. Three sources of `true`: no record or `processing=False`
(both rewrite the record to processing `False` with `last_request_time = now`), or
the 5-minute failsafe `(now - last_request).total_seconds() > 300`, which force
clears the stuck record. Otherwise returns `false` and leaves the map alone. -/
def check_user_state (s : UserStates) (uid : Nat) (now : Int) : Bool × UserStates :=
  match s uid with
  | none => (true, updState s uid ⟨false, now⟩)
  | some st =>
    if st.processing = false then
      (true, updState s uid ⟨false, now⟩)
    else if 300 < now - st.last_request_time then
      (true, updState s uid ⟨false, now⟩)
    else
      (false, s)

/-- Model of `set_user_processing` (lines 160-170): writes the `processing` flag; stamps
`last_request_time = now` only when setting the flag to `True` (or when the user
had no record yet). -/
def set_user_processing (s : UserStates) (uid : Nat) (processing : Bool) (now : Int) : UserStates :=
  match s uid with
  | none => updState s uid ⟨processing, now⟩
  | some st => updState s uid ⟨processing, if processing then now else st.last_request_time⟩

/-- The acquire pattern of the per-user busy guard exactly as the premium
handlers use it (`button_click` lines 1399-1407): `check_user_state`, and on
`True` immediately `set_user_processing(user_id, True)`. -/
def try_acquire (s : UserStates) (uid : Nat) (now : Int) : Bool × UserStates :=
  match check_user_state s uid now with
  | (true, s1) => (true, set_user_processing s1 uid true now)
  | (false, s1) => (false, s1)

/-- One row of the `subscriptions` table (schema at lines 244-255). Columns
other than `usage_count` are nullable; `usage_count` defaults to 0. -/
structure SubRow where
  plan_type : Option String
  start_date : Option Int
  end_date : Option Int
  payment_id : Option String
  status : Option String
  usage_count : Nat
  promo_code : Option String
deriving DecidableEq

/-- The `subscriptions` table, keyed by user id. -/
def SubDB : Type := Nat → Option SubRow

/-- Point upsert into the `subscriptions` table. -/
def updSub (db : SubDB) (uid : Nat) (row : SubRow) : SubDB :=
  fun u => if u = uid then some row else db u

/-- The dict `get_user_subscription` returns: the row plus the derived
`is_active` field. -/
structure Subscription where
  row : SubRow
  is_active : Bool
deriving DecidableEq

/-- Model of `get_user_subscription` (lines 348-384). Fetches the row and derives
`is_active = subscription[end_date] > now and subscription[status] == active`.
When the stored `end_date` is NULL (as in every row created by
`increment_usage_count`), the Python comparison `None > now` raises a
`TypeError`, which the enclosing `except Exception` swallows at line 382,
returning `None`; the `end_date = none` branch below models exactly that
caught-exception path. (`days_remaining` is also computed in the source but no
claim depends on it, so it is omitted.) -/
def get_user_subscription (db : SubDB) (uid : Nat) (now : Int) : Option Subscription :=
  match db uid with
  | none => none
  | some row =>
    match row.end_date with
    | none => none
    | some ed => some ⟨row, decide (now < ed) && (row.status == some "active")⟩

/-- Model of `check_subscription_access` (lines 490-515): active subscription passes
unconditionally; otherwise the free tier allows while
`usage_count < FREE_ANALYSIS_LIMIT`, reading `usage_count = 0` when
`get_user_subscription` returned `None`. -/
def check_subscription_access (db : SubDB) (uid : Nat) (now : Int) : Bool × String :=
  let sub := get_user_subscription db uid now
  if (match sub with | some s => s.is_active | none => false) then
    (true, "")
  else
    let usage_count : Nat := match sub with | some s => s.row.usage_count | none => 0
    if usage_count < FREE_ANALYSIS_LIMIT then
      let remaining := FREE_ANALYSIS_LIMIT - usage_count
      (true, s!"You have {remaining} free analyses remaining. Subscribe for unlimited access.")
    else
      (false, "You\x27ve reached the limit of free analyses. Please subscribe to continue using premium features.")

/-- Model of `increment_usage_count` (lines 447-488). `dbOk = false` models the paths
where the pool is missing or the database raises: the `except` at line 486
returns 0 and the table is untouched. Otherwise: no row yet inserts
`(uid, usage_count, status) VALUES (uid, 1, free)` (all other columns NULL)
and returns 1; an existing row gets `usage_count = usage_count + 1` and the new
count is returned. -/
def increment_usage_count (dbOk : Bool) (db : SubDB) (uid : Nat) : Nat × SubDB :=
  if dbOk = false then (0, db)
  else
    match db uid with
    | none => (1, updSub db uid ⟨none, none, none, none, some "free", 1, none⟩)
    | some row =>
      let new_count := row.usage_count + 1
      (new_count, updSub db uid { row with usage_count := new_count })

/-- Result of the access-policy gate a premium handler runs before calling the
completion service: denial with the advisory message, or grant, recording the
new usage count when the counter was incremented. -/
inductive GateOutcome
  | denied (msg : String)
  | granted (incremented : Option Nat)
deriving DecidableEq

/-- The gate sequence of `handle_market_analysis` (lines 1586-1608, identical
in `handle_trade_setup`): `check_subscription_access`; on denial stop; on grant
re-fetch the subscription and call `increment_usage_count` unless it is
active. -/
def premium_gate (db : SubDB) (uid : Nat) (now : Int) : GateOutcome × SubDB :=
  match check_subscription_access db uid now with
  | (has_access, message) =>
    if has_access = false then
      (.denied message, db)
    else
      match get_user_subscription db uid now with
      | some s =>
        if s.is_active then (.granted none, db)
        else
          match increment_usage_count true db uid with
          | (count, db2) => (.granted (some count), db2)
      | none =>
        match increment_usage_count true db uid with
        | (count, db2) => (.granted (some count), db2)

/-- Runs `n` consecutive premium attempts by one user, threading the table. -/
def attempts (db : SubDB) (uid : Nat) (now : Int) : Nat → List GateOutcome × SubDB
  | 0 => ([], db)
  | n + 1 =>
    match attempts db uid now n with
    | (outcomes, db1) =>
      match premium_gate db1 uid now with
      | (o, db2) => (outcomes ++ [o], db2)

/-- Python `str.upper()` (ASCII-faithful), modelled on the character list so
that it evaluates in the kernel. -/
def pyUpper (s : String) : String := ⟨s.data.map Char.toUpper⟩

/-- Python `str.strip()`: whitespace removed from both ends. -/
def pyStrip (s : String) : String :=
  ⟨((s.data.dropWhile Char.isWhitespace).reverse.dropWhile Char.isWhitespace).reverse⟩

/-- Tests whether `needle` is a prefix of `hay` (character-by-character). -/
def charsBeginWith : List Char → List Char → Bool
  | _, [] => true
  | [], _ :: _ => false
  | c :: cs, p :: ps => c == p && charsBeginWith cs ps

/-- Tests whether `needle` occurs somewhere inside `hay`: Python `needle in hay`. -/
def charsContain (needle : List Char) : List Char → Bool
  | [] => charsBeginWith [] needle
  | c :: rest => charsBeginWith (c :: rest) needle || charsContain needle rest

/-- Python `sub in s` (substring containment). -/
def pyContains (s sub : String) : Bool := charsContain sub.data s.data

/-- Python `s.endswith(t)`. -/
def pyEndsWith (s t : String) : Bool := charsBeginWith s.data.reverse t.data.reverse

/-- Left-to-right non-overlapping replacement on character lists; the fuel is
the length of the haystack, which each step consumes at least one of. -/
def replaceCharsAux (pat rep : List Char) : Nat → List Char → List Char
  | _, [] => []
  | 0, hay => hay
  | fuel + 1, c :: rest =>
    if pat ≠ [] && charsBeginWith (c :: rest) pat then
      rep ++ replaceCharsAux pat rep fuel (List.drop (pat.length - 1) rest)
    else
      c :: replaceCharsAux pat rep fuel rest

/-- Python `s.replace(pat, rep)` for a non-empty pattern. -/
def pyReplace (s pat rep : String) : String :=
  ⟨replaceCharsAux pat.data rep.data s.data.length s.data⟩

/-- Constant `SUBSCRIPTION_PLANS` (lines 91-95), reduced to the `days` field the core
logic consumes (names/prices/descriptions are presentation only). -/
def SUBSCRIPTION_PLANS : List (String × Nat) :=
  [("monthly", 30), ("quarterly", 90), ("annual", 365)]

/-- Constant `PROMO_CODES` (lines 98-102): code to grant duration in days. -/
def PROMO_CODES : List (String × Nat) :=
  [("ECLIPTICA2024", 30), ("PERPSMASTER", 90), ("UNLIMITED2024", 3650)]

/-- Model of `verify_promo_code` (lines 578-580): `code.upper() in PROMO_CODES`. -/
def verify_promo_code (code : String) : Bool :=
  (PROMO_CODES.lookup (pyUpper code)).isSome

/-- Model of `create_subscription` (lines 386-445). Plan resolution: a recognised
`plan_type` wins; otherwise a truthy promo code found in `PROMO_CODES` yields a
custom plan with `plan_type = "promo"`; otherwise the call fails and the table
is untouched. On success `end_date = now + days` and the row is upserted: an
existing row keeps its `usage_count` but gets `plan_type`, `start_date`,
`end_date`, `payment_id`, active `status`, `promo_code` overwritten; a new
row starts with `usage_count = 0`. -/
def create_subscription (db : SubDB) (uid : Nat) (plan_type : Option String)
    (payment_id : Option String) (promo_code : Option String) (now : Int) : Bool × SubDB :=
  let plan : Option (String × Nat) :=
    match plan_type.bind (fun pt => (SUBSCRIPTION_PLANS.lookup pt).map (fun d => (pt, d))) with
    | some pd => some pd
    | none =>
      match promo_code with
      | some pc => if pc = "" then none else (PROMO_CODES.lookup pc).map (fun d => ("promo", d))
      | none => none
  match plan with
  | none => (false, db)
  | some (pt, days) =>
    let end_date := now + (days : Int) * 86400
    match db uid with
    | some row =>
      let row2 := { row with
                    plan_type := some pt, start_date := some now, end_date := some end_date,
                    payment_id := payment_id, status := some "active", promo_code := promo_code }
      (true, updSub db uid row2)
    | none =>
      (true, updSub db uid ⟨some pt, some now, some end_date, payment_id, some "active", 0, promo_code⟩)

/-- The user-visible outcome of `handle_code_entry`. -/
inductive CodeEntryReply
  | activated (code : String) (days : Nat)
  | activationError
  | invalidCode
deriving DecidableEq

/-- Model of `handle_code_entry` (lines 988-1019): upper-cases and strips the input,
verifies it, and on success calls
`create_subscription(user_id, None, None, code)`. The `PROMO_CODES[code]`
lookup in the success message cannot fail (the code is already upper-case, and
`Char.toUpper` is idempotent), so its impossible branch defaults to 0; the
value only feeds the reply, not the table. -/
def handle_code_entry (db : SubDB) (uid : Nat) (text : String) (now : Int) :
    CodeEntryReply × SubDB :=
  let code := pyUpper (pyStrip text)
  if verify_promo_code code then
    let days := (PROMO_CODES.lookup code).getD 0
    match create_subscription db uid none none (some code) now with
    | (true, db2) => (.activated code days, db2)
    | (false, db2) => (.activationError, db2)
  else
    (.invalidCode, db)

/-- Constant `MAX_CACHE_AGE` (line 584): responses are cached for one hour. -/
def MAX_CACHE_AGE : Int := 3600

/-- The `RESPONSE_CACHE` map (line 583): from the colon-joined asset and
analysis-type key to the pair of response text and timestamp. -/
def Cache : Type := String → Option (String × Int)

/-- Point update of the response cache. -/
def updCache (c : Cache) (key : String) (v : String × Int) : Cache :=
  fun k => if k = key then some v else c k

/-- The cache probe at the top of `rei_call` (lines 592-604): consulted only
when both hints are truthy, and a hit counts only when younger than
`MAX_CACHE_AGE`. -/
def cache_lookup_fresh (cache : Cache) (asset_name analysis_type : String) (now : Int) :
    Option String :=
  if asset_name ≠ "" ∧ analysis_type ≠ "" then
    match cache (asset_name ++ ":" ++ analysis_type) with
    | some (resp, ts) => if now - ts < MAX_CACHE_AGE then some resp else none
    | none => none
  else none

/-- The `asset_name = asset.replace("-PERP", "")` computation of
`get_fallback_response`. -/
def perp_stripped (asset : String) : String := pyReplace asset "-PERP" ""

/-- Model of `get_fallback_response` (lines 815-851): the statically composed degraded
reply, branching on the analysis kind; `perp_stripped` derives the bare asset
name. -/
def get_fallback_response (asset : String) (analysis_type : String) : String :=
  if asset = "" then
    "I\x27m currently experiencing issues connecting to my analysis service. Please try again in a few minutes. If the issue persists, consider using a simpler request."
  else if analysis_type = "market" then
    s!"I\x27m sorry, I couldn\x27t retrieve a full market analysis for {asset} at the moment due to technical issues. Some key points about {asset} to consider:\n\n• Check the current price and 24h change on your preferred exchange\n• Look at the daily timeframe for major support/resistance levels\n• Monitor funding rates if taking a leveraged position\n• Consider overall market sentiment and correlation with BTC\n\nFor {perp_stripped asset} specifically:\n• The daily chart can provide insights into the broader trend\n• Recent market volatility may create opportunities for scalping\n• Watch for key technical levels that may act as support/resistance\n• Consider correlation with overall market conditions\n\nPlease try again later for a more detailed analysis."
  else if analysis_type = "setup" then
    s!"I\x27m sorry, I couldn\x27t generate a complete trade setup for {asset} at this time due to technical issues. For a basic approach to trading {asset}:\n\n• Look for key support/resistance levels on the 4h and daily charts\n• Consider setting stops 2-5% below your entry (based on your risk profile)\n• Target profit taking at previous resistance levels\n• Always manage your position size based on your risk tolerance\n\nFor {perp_stripped asset} specifically:\n• Consider monitoring volume for confirmation of trend\n• Look for confluence between multiple timeframes\n• Set a clear risk-to-reward ratio based on your trading plan\n• Always have a clear exit strategy before entering a trade\n\nPlease try again later for a more detailed trade setup."
  else
    s!"I\x27m having trouble connecting to my analysis service to provide information about {asset}. Please try again in a few minutes, or try a different request."

/-- Model of `rei_call` (lines 586-655). The two network calls are modelled by the
`primary`/`alternate` outcome parameters: `primary` is what
`_rei_call_internal` would produce after its internal retries (content, or the
exception it re-raises at line 764), `alternate` what `rei_call_alternative`
would produce. Control flow: fresh cache hit short-circuits; a primary success
is returned (and cached when both hints are truthy); on a primary exception the
alternate is tried, its success likewise returned and cached; when both raise,
a truthy `asset_name` yields `get_fallback_response` instead of raising, and
only a falsy `asset_name` re-raises. The fallback is never written to the
cache. -/
def rei_call (cache : Cache) (primary alternate : Except String String)
    (_prompt asset_name analysis_type : String) (now : Int) :
    Except String String × Cache :=
  match cache_lookup_fresh cache asset_name analysis_type now with
  | some resp => (.ok resp, cache)
  | none =>
    match primary with
    | .ok result =>
      if asset_name ≠ "" ∧ analysis_type ≠ "" then
        (.ok result, updCache cache (asset_name ++ ":" ++ analysis_type) (result, now))
      else
        (.ok result, cache)
    | .error _ =>
      match alternate with
      | .ok result =>
        if asset_name ≠ "" ∧ analysis_type ≠ "" then
          (.ok result, updCache cache (asset_name ++ ":" ++ analysis_type) (result, now))
        else
          (.ok result, cache)
      | .error e2 =>
        if asset_name ≠ "" then
          (.ok (get_fallback_response asset_name analysis_type), cache)
        else
          (.error e2, cache)

/-- Lock and network events of one `rei_call` execution. `token_lock` is the
module-level `asyncio.Lock` declared at line 85 under the comment
"Serialize REI calls across users". -/
inductive GatewayEvent
  | acquireTokenLock
  | releaseTokenLock
  | callCompletionService
  | callAlternativeService
deriving DecidableEq

/-- The event trace of `rei_call` (lines 586-655 together with
`_rei_call_internal` and `rei_call_alternative`): a fresh cache hit performs no
outbound call; otherwise the primary endpoint is called (its internal retry
can only repeat the same event), and on failure the alternate endpoint is
called. No statement in any of the three functions acquires `token_lock`, so
no lock event ever occurs. -/
def rei_call_events (cache : Cache) (primary alternate : Except String String)
    (asset_name analysis_type : String) (now : Int) : List GatewayEvent :=
  match cache_lookup_fresh cache asset_name analysis_type now with
  | some _ => []
  | none =>
    match primary with
    | .ok _ => [.callCompletionService]
    | .error _ =>
      match alternate with
      | .ok _ => [.callCompletionService, .callAlternativeService]
      | .error _ => [.callCompletionService, .callAlternativeService]

/-- Constant `QUESTS` (lines 108-117): the ordered setup questions, key and text. -/
def QUESTS : List (String × String) :=
  [("experience", "Your perps experience?"),
   ("capital",    "Capital allocated (USD)"),
   ("risk",       "Max loss % (e.g. 2)"),
   ("quote",      "Quote currency"),
   ("timeframe",  "Timeframe"),
   ("leverage",   "Leverage multiple"),
   ("funding",    "Comfort paying funding 8h?"),
   ("verbosity",  "Response detail level?")]

/-- Constant `OPTIONS` (lines 118-127): the suggested-answer buttons per
question key; `ask_next` renders one button per option with callback data of
the form setup, key, option joined by colons. -/
def OPTIONS : List (String × List String) :=
  [("experience", ["0-3m", "3-12m", ">12m"]),
   ("capital",    ["1k", "5k", "10k+"]),
   ("risk",       ["1%", "2%", "5%"]),
   ("quote",      ["USDT", "USD-C", "BTC"]),
   ("timeframe",  ["scalp", "intraday", "swing", "position"]),
   ("leverage",   ["1x", "3x", "5x", "10x"]),
   ("funding",    ["yes", "unsure", "prefer spot"]),
   ("verbosity",  ["brief", "balanced", "detailed"])]

/-- The `profile` table: user id to the stored JSON answer mapping, modelled as
an insertion-ordered key/value list (a Python dict). -/
def Profiles : Type := Nat → Option (List (String × String))

/-- Model of `save_user_profile` (lines 318-335): `INSERT ... ON CONFLICT (uid) DO
UPDATE SET data = $2` — the whole stored document is replaced. -/
def save_user_profile (p : Profiles) (uid : Nat) (data : List (String × String)) : Profiles :=
  fun u => if u = uid then some data else p u

/-- Python dict assignment `d[k] = v`: overwrite in place when the key exists,
otherwise append (insertion order preserved). -/
def dictInsert (d : List (String × String)) (k v : String) : List (String × String) :=
  if d.any (fun kv => kv.1 == k) then
    d.map (fun kv => if kv.1 == k then (k, v) else kv)
  else
    d ++ [(k, v)]

/-- The per-user wizard session: `ctx.user_data["i"]` and
`ctx.user_data["ans"]` (line 1185). -/
structure SetupSession where
  i : Nat
  ans : List (String × String)
deriving DecidableEq

/-- Model of `setup_start` (lines 1184-1190): clears the session and begins at
question 0 with no answers. -/
def setup_start_session : SetupSession := ⟨0, []⟩

/-- An inbound wizard event: an answer callback of the form setup, key, value
joined by colons (already
split on `:` as `handle_setup` does), or the `/cancel` command. -/
inductive SetupEvent
  | answer (key value : String)
  | cancelCmd
deriving DecidableEq

/-- Where the setup conversation stands. -/
inductive WizardStatus
  | active (s : SetupSession)
  | endedSaved (data : List (String × String))
  | endedCancelled
deriving DecidableEq

/-- One transition of the setup conversation. An answer runs `handle_setup`
(lines 1211-1249): store `ans[key] = value`, advance `i`, and when `i` reaches
`len(QUESTS)` persist the answers with `save_user_profile` and end. `/cancel`
runs `cancel` (lines 1251-1253), which ends the conversation persisting
nothing. Events after the conversation has ended are not routed to it. -/
def setup_step (p : Profiles) (uid : Nat) (w : WizardStatus) (ev : SetupEvent) :
    WizardStatus × Profiles :=
  match w, ev with
  | .active _, .cancelCmd => (.endedCancelled, p)
  | .active s, .answer key value =>
    let ans := dictInsert s.ans key value
    let i := s.i + 1
    if QUESTS.length ≤ i then
      (.endedSaved ans, save_user_profile p uid ans)
    else
      (.active ⟨i, ans⟩, p)
  | w2, _ => (w2, p)

/-- A whole wizard conversation from `setup_start`. -/
def run_setup (p : Profiles) (uid : Nat) (evs : List SetupEvent) : WizardStatus × Profiles :=
  evs.foldl (fun wp ev => setup_step wp.2 uid wp.1 ev) (.active setup_start_session, p)

/-- Which handler `init_handlers` (lines 1893-1952) routes a plain
(non-command) text message to. -/
inductive Handler
  | mainMenu
  | setupStart
  | subscriptionCmd
  | enterCodeCmd
  | handleCodeEntry
  | tradeStart
  | askCmd
  | faqCmd
  | handleCustomAsset
deriving DecidableEq

/-- Which conversation, if any, is active for the user. `SETUP` and
`SUBSCRIPTION` states register only callback-query handlers, so a text message
falls through them exactly as in the idle state; `ENTER_CODE` registers a
`filters.TEXT & ~filters.COMMAND` handler for `handle_code_entry`. -/
inductive ChatState
  | idle
  | setupState
  | subscriptionState
  | enterCodeState
deriving DecidableEq

/-- Text-message dispatch in the registration order of `init_handlers`: the
menu-label regex handlers and conversation entry points first, the active
`ENTER_CODE` state next, and — line 1952, registered last — the catch-all
`MessageHandler(filters.TEXT & ~filters.COMMAND, handle_custom_asset)`, which
receives every remaining text message regardless of conversation state. -/
def dispatch_text (st : ChatState) (text : String) : Handler :=
  if text = "▶️ Start" then .mainMenu
  else if text = "🔧 Setup Profile" then .setupStart
  else if text = "💰 Subscription" then .subscriptionCmd
  else if st = .enterCodeState then .handleCodeEntry
  else if text = "🎫 Enter Code" then .enterCodeCmd
  else if text = "📊 Trade" then .tradeStart
  else if text = "🤖 Ask AI" then .askCmd
  else if text = "❓ FAQ" then .faqCmd
  else .handleCustomAsset

/-- The outcome `handle_custom_asset` reports to the user. -/
inductive CustomAssetOutcome
  | busyNotice
  | ignoredKeyword
  | emptyPrompt
  | analysisOptions (asset : String)
deriving DecidableEq

/-- The keyword skip list of `handle_custom_asset` (line 1826). -/
def special_keywords : List String :=
  ["SUBSCRIPTION", "ENTER CODE", "FAQ", "ASK AI", "TRADE", "SETUP"]

/-- Model of `handle_custom_asset` (lines 1812-1859), threading the busy-state map:
upper-case and strip the text; refuse when `check_user_state` says busy; drop
messages containing a special keyword; re-prompt on empty input; otherwise
append `-PERP` when missing, call `set_user_processing(user_id, True)`, and
send the analysis-options keyboard. `sendOk` is whether that send succeeds:
only the `except` branch (line 1859) releases the processing flag — the
success path returns with it still set. -/
def handle_custom_asset (s : UserStates) (uid : Nat) (now : Int) (text : String)
    (sendOk : Bool) : CustomAssetOutcome × UserStates :=
  let asset := pyUpper (pyStrip text)
  match check_user_state s uid now with
  | (false, s1) => (.busyNotice, s1)
  | (true, s1) =>
    if special_keywords.any (fun k => pyContains asset k) then
      (.ignoredKeyword, s1)
    else if asset = "" then
      (.emptyPrompt, s1)
    else
      let asset2 := if pyEndsWith asset "-PERP" then asset else asset ++ "-PERP"
      let s2 := set_user_processing s1 uid true now
      if sendOk then
        (.analysisOptions asset2, s2)
      else
        (.analysisOptions asset2, set_user_processing s2 uid false now)

/-- C3: a successful `try_acquire` sets `processing=true` with
`last_request_time=now`, and a second `try_acquire` before any release and
within the 5-minute failsafe window returns `false`. -/
theorem try_acquire_blocks_second (s : UserStates) (uid : Nat) (now now2 : Int)
    (hfst : (try_acquire s uid now).1 = true)
    (hwin : now2 - now ≤ 300) :
    (try_acquire s uid now).2 uid = some ⟨true, now⟩ ∧
    (try_acquire ((try_acquire s uid now).2) uid now2).1 = false := by
  have hstate : (try_acquire s uid now).2 uid = some ⟨true, now⟩ := by
    unfold try_acquire check_user_state at *
    cases h : s uid with
    | none =>
      simp [h, set_user_processing, updState]
    | some st =>
      simp only [h] at hfst ⊢
      by_cases hp : st.processing = false
      · simp [hp, set_user_processing, updState]
      · simp only [hp, if_false] at hfst ⊢
        by_cases hw : 300 < now - st.last_request_time
        · simp [hw, set_user_processing, updState]
        · simp [hw] at hfst
  refine ⟨hstate, ?_⟩
  generalize hgen : (try_acquire s uid now).2 = s2 at hstate
  have hnot : ¬ (300 : Int) < now2 - now := not_lt.mpr hwin
  unfold try_acquire check_user_state
  rw [hstate]
  simp [hnot]

/-- Witness for `try_acquire_blocks_second` at a concrete state. -/
theorem try_acquire_blocks_second_witness :
    (try_acquire (fun _ => none) 1 5).2 1 = some ⟨true, 5⟩ ∧
    (try_acquire ((try_acquire (fun _ => none) 1 5).2) 1 7).1 = false :=
  try_acquire_blocks_second (fun _ => none) 1 5 7 (by decide) (by decide)

/-- C9: when the stored `last_request_time` is older than the 5-minute failsafe
window, the acquire path reports the user as free regardless of the stored
`processing` flag (stuck-state self-healing in `check_user_state`). -/
theorem stale_busy_state_self_heals (s : UserStates) (uid : Nat) (now : Int) (st : BusyState)
    (hst : s uid = some st)
    (hold : 300 < now - st.last_request_time) :
    (check_user_state s uid now).1 = true ∧ (try_acquire s uid now).1 = true := by
  have hchk : (check_user_state s uid now).1 = true := by
    unfold check_user_state
    simp only [hst]
    by_cases hp : st.processing = false
    · simp [hp]
    · simp [hp, hold]
  refine ⟨hchk, ?_⟩
  unfold try_acquire
  cases h : check_user_state s uid now with
  | mk ok s1 =>
    have : ok = true := by rw [← hchk, h]
    subst this
    rfl

/-- Witness for `stale_busy_state_self_heals`: a user stuck with
`processing=true` for 301 seconds is treated as free. -/
theorem stale_busy_state_self_heals_witness :
    (check_user_state (fun u => if u = 9 then some ⟨true, 0⟩ else none) 9 301).1 = true ∧
    (try_acquire (fun u => if u = 9 then some ⟨true, 0⟩ else none) 9 301).1 = true :=
  stale_busy_state_self_heals (fun u => if u = 9 then some ⟨true, 0⟩ else none) 9 301
    ⟨true, 0⟩ (by decide) (by decide)

/-- C10: the usage recorder never propagates an error: fresh user inserts a
a free-status row with count 1 and returns 1; existing user adds exactly 1
and returns the new count; a failed database operation returns 0 with the table
unchanged (indistinguishable by the caller from a fresh zero count). -/
theorem increment_usage_count_spec (db : SubDB) (uid : Nat) :
    (db uid = none →
      increment_usage_count true db uid =
        (1, updSub db uid ⟨none, none, none, none, some "free", 1, none⟩)) ∧
    (∀ row, db uid = some row →
      (increment_usage_count true db uid).1 = row.usage_count + 1 ∧
      (increment_usage_count true db uid).2 uid = some { row with usage_count := row.usage_count + 1 }) ∧
    increment_usage_count false db uid = (0, db) := by
  refine ⟨?_, ?_, ?_⟩
  · intro h
    unfold increment_usage_count
    simp [h]
  · intro row h
    unfold increment_usage_count
    simp [h, updSub]
  · rfl

/-- Witness for `increment_usage_count_spec`: the fresh-user and existing-user
cases evaluated at concrete tables. -/
theorem increment_usage_count_spec_witness :
    (increment_usage_count true (fun _ => none) 3 =
      (1, updSub (fun _ => none) 3 ⟨none, none, none, none, some "free", 1, none⟩)) ∧
    ((increment_usage_count true
        (fun u => if u = 3 then some ⟨none, none, none, none, some "free", 2, none⟩ else none) 3).1 = 2 + 1) ∧
    increment_usage_count false (fun _ => none) 3 = (0, fun _ => none) :=
  ⟨(increment_usage_count_spec (fun _ => none) 3).1 rfl,
   ((increment_usage_count_spec
      (fun u => if u = 3 then some ⟨none, none, none, none, some "free", 2, none⟩ else none) 3).2.1
      ⟨none, none, none, none, some "free", 2, none⟩ (by simp)).1,
   (increment_usage_count_spec (fun _ => none) 3).2.2⟩

/-- C2 is false on the code: a user starting with no subscription record is
granted the attempt numbered `FREE_ANALYSIS_LIMIT + 1 = 4` (and every later
attempt), with the usage counter incremented to 4. The rows created by
`increment_usage_count` have NULL `end_date`, so every
`get_user_subscription` call on them takes the caught-`TypeError` path and
returns `None`, making `check_subscription_access` read `usage_count = 0`
forever: the free limit is never enforced for such users. -/
theorem free_limit_fourth_attempt_granted :
    (attempts (fun _ => none) 42 0 4).1 =
      [.granted (some 1), .granted (some 2), .granted (some 3), .granted (some 4)] ∧
    ((attempts (fun _ => none) 42 0 4).2 42).map (·.usage_count) = some 4 := by
  constructor
  · rfl
  · rfl

/-- C6: redeeming a valid promo code upserts the subscription of that user
with active status, `start_date = now`, `end_date - start_date` equal to the
day count configured for the code, and the stored promo code; the derived
`is_active` is then true. An input failing `verify_promo_code` changes nothing
and yields the denial reply. -/
theorem promo_redemption_spec (db : SubDB) (uid : Nat) (text : String) (now : Int) :
    (∀ days, PROMO_CODES.lookup (pyUpper (pyStrip text)) = some days →
      (handle_code_entry db uid text now).1 = .activated (pyUpper (pyStrip text)) days ∧
      ∃ row, (handle_code_entry db uid text now).2 uid = some row ∧
        row.status = some "active" ∧
        row.start_date = some now ∧
        row.end_date = some (now + (days : Int) * 86400) ∧
        row.promo_code = some (pyUpper (pyStrip text)) ∧
        (get_user_subscription (handle_code_entry db uid text now).2 uid now).map (·.is_active)
          = some true) ∧
    (verify_promo_code (pyUpper (pyStrip text)) = false →
      handle_code_entry db uid text now = (.invalidCode, db)) := by
  constructor
  · intro days h
    generalize hc : pyUpper (pyStrip text) = code at *
    have hcases : (code = "ECLIPTICA2024" ∧ days = 30) ∨ (code = "PERPSMASTER" ∧ days = 90) ∨
        (code = "UNLIMITED2024" ∧ days = 3650) := by
      by_cases h1 : code = "ECLIPTICA2024"
      · subst h1; simp [PROMO_CODES, List.lookup] at h; exact Or.inl ⟨rfl, h.symm⟩
      · by_cases h2 : code = "PERPSMASTER"
        · subst h2; simp [PROMO_CODES, List.lookup] at h; exact Or.inr (Or.inl ⟨rfl, h.symm⟩)
        · by_cases h3 : code = "UNLIMITED2024"
          · subst h3; simp [PROMO_CODES, List.lookup] at h
            exact Or.inr (Or.inr ⟨rfl, h.symm⟩)
          · exfalso
            simp only [PROMO_CODES, List.lookup] at h
            rw [show (code == "ECLIPTICA2024") = false by simpa using h1,
                show (code == "PERPSMASTER") = false by simpa using h2,
                show (code == "UNLIMITED2024") = false by simpa using h3] at h
            simp at h
    have hdays : (0 : Int) < (days : Int) * 86400 := by
      rcases hcases with ⟨_, hd⟩ | ⟨_, hd⟩ | ⟨_, hd⟩ <;> subst hd <;> decide
    have hverify : verify_promo_code code = true := by
      rcases hcases with ⟨he, _⟩ | ⟨he, _⟩ | ⟨he, _⟩ <;> subst he <;> decide
    have hne : ¬ code = "" := by
      rcases hcases with ⟨he, _⟩ | ⟨he, _⟩ | ⟨he, _⟩ <;> subst he <;> decide
    cases hdb : db uid with
    | some row =>
      have hcs : create_subscription db uid none none (some code) now =
          (true, updSub db uid { row with
                                 plan_type := some "promo", start_date := some now,
                                 end_date := some (now + (days : Int) * 86400),
                                 payment_id := none, status := some "active",
                                 promo_code := some code }) := by
        unfold create_subscription
        simp [h, hne, hdb]
      unfold handle_code_entry
      rw [hc]
      simp only [hverify, if_true, hcs, h, Option.getD_some]
      refine ⟨trivial, { row with
                         plan_type := some "promo", start_date := some now,
                         end_date := some (now + (days : Int) * 86400),
                         payment_id := none, status := some "active",
                         promo_code := some code }, ?_, rfl, rfl, rfl, rfl, ?_⟩
      · simp [updSub]
      · unfold get_user_subscription
        simp [updSub, show now < now + (days : Int) * 86400 by omega]
    | none =>
      have hcs : create_subscription db uid none none (some code) now =
          (true, updSub db uid ⟨some "promo", some now, some (now + (days : Int) * 86400),
                                none, some "active", 0, some code⟩) := by
        unfold create_subscription
        simp [h, hne, hdb]
      unfold handle_code_entry
      rw [hc]
      simp only [hverify, if_true, hcs, h, Option.getD_some]
      refine ⟨trivial, ⟨some "promo", some now, some (now + (days : Int) * 86400),
                        none, some "active", 0, some code⟩, ?_, rfl, rfl, rfl, rfl, ?_⟩
      · simp [updSub]
      · unfold get_user_subscription
        simp [updSub, show now < now + (days : Int) * 86400 by omega]
  · intro h
    unfold handle_code_entry
    simp [h]

/-- Witness for `promo_redemption_spec`: redeeming `" ecliptica2024 "` (mixed
case, padded) activates a 30-day subscription, and `"BOGUS"` is denied. -/
theorem promo_redemption_spec_witness :
    ((handle_code_entry (fun _ => none) 7 " ecliptica2024 " 1000).1 =
        .activated "ECLIPTICA2024" 30 ∧
      ∃ row, (handle_code_entry (fun _ => none) 7 " ecliptica2024 " 1000).2 7 = some row ∧
        row.status = some "active" ∧
        row.start_date = some 1000 ∧
        row.end_date = some (1000 + (30 : Int) * 86400) ∧
        row.promo_code = some "ECLIPTICA2024" ∧
        (get_user_subscription (handle_code_entry (fun _ => none) 7 " ecliptica2024 " 1000).2 7
            1000).map (·.is_active) = some true) ∧
    handle_code_entry (fun _ => none) 7 "BOGUS" 1000 = (.invalidCode, fun _ => none) := by
  constructor
  · have h30 : PROMO_CODES.lookup (pyUpper (pyStrip " ecliptica2024 ")) = some 30 := by decide
    have := (promo_redemption_spec (fun _ => none) 7 " ecliptica2024 " 1000).1 30 h30
    simpa [show pyUpper (pyStrip " ecliptica2024 ") = "ECLIPTICA2024" by decide] using this
  · exact (promo_redemption_spec (fun _ => none) 7 "BOGUS" 1000).2 (by decide)

/-- Appending cannot shorten a string below its left part. -/
theorem append_length_pos (s t : String) (h : 0 < s.length) : 0 < (s ++ t).length := by
  rw [String.length_append]
  omega

/-- A string of positive length is not the empty string. -/
theorem ne_empty_of_length_pos (s : String) (h : 0 < s.length) : s ≠ "" := by
  intro he
  subst he
  simp at h

set_option maxRecDepth 8192 in
/-- The degraded reply is non-empty for every asset and analysis kind. -/
theorem get_fallback_response_nonempty (asset analysis_type : String) :
    get_fallback_response asset analysis_type ≠ "" := by
  apply ne_empty_of_length_pos
  unfold get_fallback_response
  by_cases ha : asset = ""
  · rw [if_pos ha]
    decide
  · rw [if_neg ha]
    by_cases hm : analysis_type = "market"
    · rw [if_pos hm]
      repeat apply append_length_pos
      decide
    · rw [if_neg hm]
      by_cases hs : analysis_type = "setup"
      · rw [if_pos hs]
        repeat apply append_length_pos
        decide
      · rw [if_neg hs]
        repeat apply append_length_pos
        decide

/-- C4: with a known (truthy) asset hint and no fresh cache entry, if the
primary call (after all its internal retries) and the single alternate call
both raise, `rei_call` returns the deterministic statically composed
`get_fallback_response` for that asset and analysis kind — a non-empty string —
and does not raise. -/
theorem rei_call_fallback_on_double_failure (cache : Cache)
    (e1 e2 prompt asset_name analysis_type : String) (now : Int)
    (hasset : asset_name ≠ "")
    (hmiss : cache (asset_name ++ ":" ++ analysis_type) = none) :
    (rei_call cache (.error e1) (.error e2) prompt asset_name analysis_type now).1 =
      .ok (get_fallback_response asset_name analysis_type) ∧
    get_fallback_response asset_name analysis_type ≠ "" := by
  refine ⟨?_, get_fallback_response_nonempty asset_name analysis_type⟩
  have hcached : cache_lookup_fresh cache asset_name analysis_type now = none := by
    unfold cache_lookup_fresh
    by_cases hcond : asset_name ≠ "" ∧ analysis_type ≠ ""
    · rw [if_pos hcond, hmiss]
    · rw [if_neg hcond]
  unfold rei_call
  rw [hcached]
  simp [hasset]

/-- Witness for `rei_call_fallback_on_double_failure` at a concrete input. -/
theorem rei_call_fallback_on_double_failure_witness :
    (rei_call (fun _ => none) (.error "status 524") (.error "status 500")
        "analyse" "BTC-PERP" "market" 0).1 =
      .ok (get_fallback_response "BTC-PERP" "market") ∧
    get_fallback_response "BTC-PERP" "market" ≠ "" :=
  rei_call_fallback_on_double_failure (fun _ => none) "status 524" "status 500"
    "analyse" "BTC-PERP" "market" 0 (by decide) rfl

/-- C1 is false on the code: the global `token_lock` is declared but never
acquired. Every execution of `rei_call` is free of lock events, and every
cache-missing execution performs a completion-service call — so two concurrent
users both reach the service call with no mutual exclusion between them. -/
theorem token_lock_never_acquired (cache : Cache) (primary alternate : Except String String)
    (asset_name analysis_type : String) (now : Int) :
    GatewayEvent.acquireTokenLock ∉
      rei_call_events cache primary alternate asset_name analysis_type now ∧
    (cache (asset_name ++ ":" ++ analysis_type) = none →
      GatewayEvent.callCompletionService ∈
        rei_call_events cache primary alternate asset_name analysis_type now) := by
  constructor
  · unfold rei_call_events
    cases cache_lookup_fresh cache asset_name analysis_type now with
    | some r => simp
    | none =>
      cases primary with
      | ok r => simp
      | error e =>
        cases alternate with
        | ok r => simp
        | error e2 => simp
  · intro hmiss
    have hcached : cache_lookup_fresh cache asset_name analysis_type now = none := by
      unfold cache_lookup_fresh
      by_cases hcond : asset_name ≠ "" ∧ analysis_type ≠ ""
      · rw [if_pos hcond, hmiss]
      · rw [if_neg hcond]
    unfold rei_call_events
    rw [hcached]
    cases primary with
    | ok r => simp
    | error e =>
      cases alternate with
      | ok r => simp
      | error e2 => simp

/-- Witness for `token_lock_never_acquired`: two users racing on distinct
cache-missing calls both produce a service call and neither ever acquires the
lock. -/
theorem token_lock_never_acquired_witness :
    (GatewayEvent.acquireTokenLock ∉
        rei_call_events (fun _ => none) (.ok "alpha") (.ok "x") "BTC-PERP" "market" 0 ∧
      GatewayEvent.callCompletionService ∈
        rei_call_events (fun _ => none) (.ok "alpha") (.ok "x") "BTC-PERP" "market" 0) ∧
    (GatewayEvent.acquireTokenLock ∉
        rei_call_events (fun _ => none) (.ok "beta") (.ok "y") "ETH-PERP" "market" 0 ∧
      GatewayEvent.callCompletionService ∈
        rei_call_events (fun _ => none) (.ok "beta") (.ok "y") "ETH-PERP" "market" 0) :=
  ⟨⟨(token_lock_never_acquired (fun _ => none) (.ok "alpha") (.ok "x") "BTC-PERP" "market" 0).1,
    (token_lock_never_acquired (fun _ => none) (.ok "alpha") (.ok "x") "BTC-PERP" "market" 0).2 rfl⟩,
   ⟨(token_lock_never_acquired (fun _ => none) (.ok "beta") (.ok "y") "ETH-PERP" "market" 0).1,
    (token_lock_never_acquired (fun _ => none) (.ok "beta") (.ok "y") "ETH-PERP" "market" 0).2 rfl⟩⟩

/-- C5: answering the 8 questions in order walks through all 8 question states
(`i = 0 .. 7`) and commits a profile holding all 8 configured keys, replacing
whatever profile was stored before, for arbitrary answer values (in particular
the `OPTIONS` button values); `/cancel` at any question state ends the wizard
with the profile store untouched. -/
theorem setup_wizard_spec (p : Profiles) (uid : Nat) (v0 v1 v2 v3 v4 v5 v6 v7 : String) :
    (run_setup p uid
        [.answer "experience" v0, .answer "capital" v1, .answer "risk" v2, .answer "quote" v3,
         .answer "timeframe" v4, .answer "leverage" v5, .answer "funding" v6,
         .answer "verbosity" v7]).1 =
      .endedSaved [("experience", v0), ("capital", v1), ("risk", v2), ("quote", v3),
                   ("timeframe", v4), ("leverage", v5), ("funding", v6), ("verbosity", v7)] ∧
    (run_setup p uid
        [.answer "experience" v0, .answer "capital" v1, .answer "risk" v2, .answer "quote" v3,
         .answer "timeframe" v4, .answer "leverage" v5, .answer "funding" v6,
         .answer "verbosity" v7]).2 uid =
      some [("experience", v0), ("capital", v1), ("risk", v2), ("quote", v3),
            ("timeframe", v4), ("leverage", v5), ("funding", v6), ("verbosity", v7)] ∧
    (∀ j, j < 8 →
      (run_setup p uid
          (([.answer "experience" v0, .answer "capital" v1, .answer "risk" v2,
             .answer "quote" v3, .answer "timeframe" v4, .answer "leverage" v5,
             .answer "funding" v6, .answer "verbosity" v7] : List SetupEvent).take j)).1 =
        .active ⟨j, ([("experience", v0), ("capital", v1), ("risk", v2), ("quote", v3),
                      ("timeframe", v4), ("leverage", v5), ("funding", v6),
                      ("verbosity", v7)] : List (String × String)).take j⟩) ∧
    (∀ j, j < 8 →
      run_setup p uid
          ((([.answer "experience" v0, .answer "capital" v1, .answer "risk" v2,
              .answer "quote" v3, .answer "timeframe" v4, .answer "leverage" v5,
              .answer "funding" v6, .answer "verbosity" v7] : List SetupEvent).take j) ++
            [.cancelCmd]) =
        (.endedCancelled, p)) := by
  refine ⟨rfl, ?_, ?_, ?_⟩
  · have hrun : (run_setup p uid
        [.answer "experience" v0, .answer "capital" v1, .answer "risk" v2, .answer "quote" v3,
         .answer "timeframe" v4, .answer "leverage" v5, .answer "funding" v6,
         .answer "verbosity" v7]).2 =
        save_user_profile p uid
          [("experience", v0), ("capital", v1), ("risk", v2), ("quote", v3),
           ("timeframe", v4), ("leverage", v5), ("funding", v6), ("verbosity", v7)] := rfl
    rw [hrun]
    simp [save_user_profile]
  · intro j hj
    interval_cases j <;> rfl
  · intro j hj
    interval_cases j <;> rfl

/-- Witness for `setup_wizard_spec`: a concrete run with the first `OPTIONS`
button of each question, plus the `j = 3` question state and a cancel at
`j = 3`. -/
theorem setup_wizard_spec_witness :
    (run_setup (fun _ => none) 5
        [.answer "experience" "0-3m", .answer "capital" "1k", .answer "risk" "1%",
         .answer "quote" "USDT", .answer "timeframe" "scalp", .answer "leverage" "1x",
         .answer "funding" "yes", .answer "verbosity" "brief"]).1 =
      .endedSaved [("experience", "0-3m"), ("capital", "1k"), ("risk", "1%"),
                   ("quote", "USDT"), ("timeframe", "scalp"), ("leverage", "1x"),
                   ("funding", "yes"), ("verbosity", "brief")] ∧
    (run_setup (fun _ => none) 5
        [.answer "experience" "0-3m", .answer "capital" "1k", .answer "risk" "1%",
         .answer "quote" "USDT", .answer "timeframe" "scalp", .answer "leverage" "1x",
         .answer "funding" "yes", .answer "verbosity" "brief"]).2 5 =
      some [("experience", "0-3m"), ("capital", "1k"), ("risk", "1%"),
            ("quote", "USDT"), ("timeframe", "scalp"), ("leverage", "1x"),
            ("funding", "yes"), ("verbosity", "brief")] ∧
    (run_setup (fun _ => none) 5
        (([.answer "experience" "0-3m", .answer "capital" "1k", .answer "risk" "1%",
           .answer "quote" "USDT", .answer "timeframe" "scalp", .answer "leverage" "1x",
           .answer "funding" "yes", .answer "verbosity" "brief"] : List SetupEvent).take 3)).1 =
      .active ⟨3, ([("experience", "0-3m"), ("capital", "1k"), ("risk", "1%"),
                    ("quote", "USDT"), ("timeframe", "scalp"), ("leverage", "1x"),
                    ("funding", "yes"), ("verbosity", "brief")] :
                     List (String × String)).take 3⟩ ∧
    run_setup (fun _ => none) 5
        ((([.answer "experience" "0-3m", .answer "capital" "1k", .answer "risk" "1%",
            .answer "quote" "USDT", .answer "timeframe" "scalp", .answer "leverage" "1x",
            .answer "funding" "yes", .answer "verbosity" "brief"] : List SetupEvent).take 3) ++
          [.cancelCmd]) =
      (.endedCancelled, fun _ => none) :=
  ⟨(setup_wizard_spec (fun _ => none) 5 "0-3m" "1k" "1%" "USDT" "scalp" "1x" "yes" "brief").1,
   (setup_wizard_spec (fun _ => none) 5 "0-3m" "1k" "1%" "USDT" "scalp" "1x" "yes" "brief").2.1,
   (setup_wizard_spec (fun _ => none) 5 "0-3m" "1k" "1%" "USDT" "scalp" "1x" "yes"
      "brief").2.2.1 3 (by decide),
   (setup_wizard_spec (fun _ => none) 5 "0-3m" "1k" "1%" "USDT" "scalp" "1x" "yes"
      "brief").2.2.2 3 (by decide)⟩

/-- C7 is false on the code: with no conversation active, an arbitrary text
message ("hello") is routed to the registered catch-all `handle_custom_asset`,
which interprets it as the trading asset "HELLO-PERP" and offers analysis
options — free text is treated as an asset symbol outside any asset-entry
state. -/
theorem free_text_dispatched_as_asset :
    dispatch_text .idle "hello" = .handleCustomAsset ∧
    (handle_custom_asset (fun _ => none) 7 0 "hello" true).1 =
      .analysisOptions "HELLO-PERP" := by
  exact ⟨by decide, by decide⟩

/-- C8 is false on the code: `handle_custom_asset` acquires the per-user busy
flag and, on its successful completion path, finishes with the flag still set
(`processing = true`), so the immediately following button click — which runs
`check_user_state` — is rejected; only the send-failure branch releases the
flag. -/
theorem custom_asset_busy_flag_leaked :
    (handle_custom_asset (fun _ => none) 7 0 "doge" true).1 = .analysisOptions "DOGE-PERP" ∧
    (handle_custom_asset (fun _ => none) 7 0 "doge" true).2 7 = some ⟨true, 0⟩ ∧
    (check_user_state ((handle_custom_asset (fun _ => none) 7 0 "doge" true).2) 7 10).1 =
      false ∧
    (handle_custom_asset (fun _ => none) 7 0 "doge" false).2 7 = some ⟨false, 0⟩ := by
  exact ⟨by decide, by decide, by decide, by decide⟩

